import Mathlib

/-!
Verification development for the segment evaluation, caching and fan-out
subsystem of powerline's vim segments module (powerline/segments/vim.py).

The Python module is shallowly embedded: host handles (buffers, windows, tab
pages) become concrete structures carrying exactly the data the module reads
from them; the module-level mutable caches become explicit state threaded
through step functions; Python floats are modelled as exact rationals (all
arithmetic appearing in the module is exact in ℚ); a Python function that can
raise an uncaught exception is modelled with Except.
-/

namespace Powerline

/-- Host buffer handle: the module reads a buffer's number, its name and its
lines (lines are modelled as lists of characters, i.e. already decoded). -/
structure Buffer where
  number : Int
  name : Option String
  lines : List (List Char)
deriving DecidableEq

/-- Host window handle: the module reads a window's number, its buffer, its
cursor (line, column) and its window-local variables (only the integer
variable powerline_window_id is ever read). -/
structure Window where
  number : Int
  buffer : Buffer
  cursor : Int × Int
  vars : List (String × Int)
deriving DecidableEq

/-- Host tab-page handle: the module reads its number and its active window. -/
structure Tabpage where
  number : Int
  window : Window
deriving DecidableEq

/-- The segment_info dictionary.  The named fields are exactly the keys the
module reads or writes; extra models any further entries of the dictionary
(other keys placed there by the renderer), so that preservation of unrelated
entries is expressible. -/
structure SegmentInfo where
  mode : String
  buffer : Buffer
  bufnr : Int
  window : Option Window
  winnr : Option Int
  window_id : Option Int
  tabpage : Option Tabpage
  tabnr : Option Int
  extra : List (String × String)
deriving DecidableEq

/-- One element of a returned fragment list: a dictionary with contents,
highlight_group, and optional gradient_level / divider_highlight_group. -/
structure SegmentPart where
  contents : String
  highlight_group : List String
  gradient_level : Option ℚ
  divider_highlight_group : Option String
deriving DecidableEq

/-- A segment function result: Python None (absent), a plain string, or a
list of segment parts. -/
inductive FragmentValue where
  | absent
  | text (s : String)
  | parts (l : List SegmentPart)
deriving DecidableEq

/-- The override dictionary produced by the listers: it always carries a mode
and a priority_multiplier. -/
structure Override where
  mode : String
  priority_multiplier : ℚ
deriving DecidableEq

/-- The host state the listers query: the open tab pages with the current one,
and the open buffers with the current one (list_tabpages, current_tabpage,
vim.buffers, vim.current.buffer). -/
structure VimHost where
  tabpages : List Tabpage
  curTab : Tabpage
  buffers : List Buffer
  curBuf : Buffer
deriving DecidableEq

/-! ## Trailing-whitespace scan (trailing_whitespace, lines 442-488)

The module sets bws = b' \t' and sws = str(bws).  Under Python 2 str of a
bytes literal is the bytes themselves, so sws is the two-character string
" \t"; under Python 3 str(b' \t') is the repr, the six-character string
b, quote, space, backslash, t, quote.  Both readings are defined below. -/

/-- bws = b' \t': the two byte values space and tab. -/
def bws : List Char := [' ', '\t']

/-- sws = str(bws) as evaluated by Python 3: the repr of the bytes literal,
i.e. the characters b, single quote, space, backslash, t, single quote. -/
def sws : List Char := ['b', Char.ofNat 39, ' ', '\\', 't', Char.ofNat 39]

/-- The per-line test of the scan: line and line[-1] in ws.  An empty line is
falsy, so it is never flagged; otherwise the last character is tested for
membership in ws. -/
def flaggedWith (ws : List Char) (line : List Char) : Bool :=
  match line.getLast? with
  | some c => ws.contains c
  | none => false

/-- The scan loop: for i in range(len(buf)), breaking at the first line whose
flaggedWith test holds.  Returns the 1-based number of the first flagged line
(str(i + 1) in the source), or none when no line is flagged. -/
def tw_scan (ws : List Char) : List (List Char) → Option Nat
  | [] => none
  | l :: ls =>
    if flaggedWith ws l then some 1
    else (tw_scan ws ls).map (fun n => n + 1)

/-- The whole-buffer computation of trailing_whitespace (the else branch of
the cache test): scan the lines and build the returned fragment.  On an empty
buffer the source's loop body never runs and the following read of
has_trailing_ws raises NameError; that error case is the Except.error. -/
def trailing_whitespace_compute (ws : List Char) (buf : List (List Char)) :
    Except Unit FragmentValue :=
  if buf = [] then .error ()
  else
    match tw_scan ws buf with
    | some n => .ok (.parts [⟨toString n, ["trailing_whitespace", "warning"], none, none⟩])
    | none => .ok .absent

/-! ## Mutation-keyed cache (trailing_whitespace_cache)

The cache is a defaultdict(lambda: (0, None)) keyed by buffer number, each
entry a pair (changedtick, cached result).  It is modelled as an association
list with most-recent-first lookup; the defaultdict default is produced by the
lookup function.  (A Python defaultdict inserts the default on a missing read;
under this lookup that insertion is observationally identical, so it is not
modelled as a state change.) -/

/-- The mutation-keyed cache state: buffer number to (counter, value). -/
abbrev TWCache := List (Int × Int × FragmentValue)

/-- trailing_whitespace_cache[bufnr] including the defaultdict default
(0, None). -/
def twLookup (c : TWCache) (bufnr : Int) : Int × FragmentValue :=
  match c.find? (fun e => e.1 == bufnr) with
  | some e => e.2
  | none => (0, .absent)

/-- trailing_whitespace_cache[bufnr] = (changedtick, ret): dictionary update,
modelled by consing (lookup takes the most recent entry). -/
def twStore (c : TWCache) (bufnr tick : Int) (v : FragmentValue) : TWCache :=
  (bufnr, tick, v) :: c

/-- One call of trailing_whitespace on the explicit cache state: compare the
stored counter for bufnr with the current changedtick; on a hit return the
stored value; on a miss run the scan, store (changedtick, ret) and return ret.
The returned Bool records whether the buffer scan ran. -/
def trailing_whitespace_step (c : TWCache) (bufnr changedtick : Int)
    (buf : List (List Char)) : Except Unit (FragmentValue × TWCache × Bool) :=
  if (twLookup c bufnr).1 = changedtick then
    .ok ((twLookup c bufnr).2, c, false)
  else
    match trailing_whitespace_compute sws buf with
    | .error e => .error e
    | .ok ret => .ok (ret, twStore c bufnr changedtick ret, true)

/-! ## Focus-gated cache (window_cached, lines 66-80)

The decorator closes over a dict keyed by segment_info['window_id'].  The
cache is modelled as a function from window_id (which may be Python None for
buffer-derived contexts, hence Option Int) to the stored value.  The wrapped
function is polymorphic, as the decorator is. -/

/-- The focus-gated cache state of one decorated function. -/
def WCache (α : Type) := Option Int → Option α

/-- Dictionary assignment cache[window_id] = r. -/
def wcSet {α : Type} (c : WCache α) (k : Option Int) (v : α) : WCache α :=
  fun k2 => if k2 = k then some v else c k2

/-- One call of a window_cached function: when mode is the not-current tag
return cache.get(window_id) without calling the wrapped function; otherwise
call it, store the result under window_id and return it.  The Bool records
whether the wrapped function ran. -/
def window_cached_step {α : Type} (c : WCache α) (si : SegmentInfo)
    (func : Unit → α) : Option α × WCache α × Bool :=
  if si.mode = "nc" then (c si.window_id, c, false)
  else
    let r := func ()
    (some r, wcSet c si.window_id r, true)

/-- A sequence of window_cached calls, keeping only the final cache state. -/
def wcRun {α : Type} (c : WCache α) : List (SegmentInfo × (Unit → α)) → WCache α
  | [] => c
  | p :: rest => wcRun (window_cached_step c p.1 p.2).2.1 rest

/-! ## The mode segment (mode, lines 83-98) -/

/-- The static mode table vim_modes. -/
def vim_modes : List (String × String) :=
  [("n", "NORMAL"), ("no", "N·OPER"), ("v", "VISUAL"), ("V", "V·LINE"),
   ("^V", "V·BLCK"), ("s", "SELECT"), ("S", "S·LINE"), ("^S", "S·BLCK"),
   ("i", "INSERT"), ("R", "REPLACE"), ("Rv", "V·RPLCE"), ("c", "COMMND"),
   ("cv", "VIM EX"), ("ce", "EX"), ("r", "PROMPT"), ("rm", "MORE"),
   ("r?", "CONFIRM"), ("!", "SHELL")]

/-- Dictionary subscript tbl[m]: KeyError (Except.error) when absent. -/
def dictItem (tbl : List (String × String)) (m : String) :
    Except Unit (Option String) :=
  match List.lookup m tbl with
  | some v => .ok (some v)
  | none => .error ()

/-- The mode segment: None in the not-current context; with a falsy override
(None or the empty dict) index the default table; otherwise try the override
and fall back to the default table on KeyError. -/
def mode_segment (si : SegmentInfo)
    (override : Option (List (String × String))) : Except Unit (Option String) :=
  let m := si.mode
  if m = "nc" then .ok none
  else
    match override with
    | none => dictItem vim_modes m
    | some l =>
      if l.isEmpty then dictItem vim_modes m
      else
        match List.lookup m l with
        | some v => .ok (some v)
        | none => dictItem vim_modes m

/-! ## The line_percent segment (lines 273-291) -/

/-- Python 3 round to the nearest integer, ties to even. -/
def pyRound (q : ℚ) : ℤ :=
  let f := ⌊q⌋
  let r := q - f
  if r < 1 / 2 then f
  else if 1 / 2 < r then f + 1
  else if 2 ∣ f then f else f + 1

/-- The line_percent segment: percentage = cursor line * 100.0 / line count;
without gradient the formatted text alone, with gradient a one-part fragment
carrying the text and the raw percentage as gradient_level.  A missing window
in segment_info would raise in the source (error case); vim buffers always
have at least one line, so the line count is nonzero in every reachable
state. -/
def line_percent (si : SegmentInfo) (gradient : Bool) :
    Except Unit FragmentValue :=
  match si.window with
  | none => .error ()
  | some w =>
    let line_cur : Int := w.cursor.1
    let line_last : Int := si.buffer.lines.length
    let percentage : ℚ := (line_cur : ℚ) * 100 / (line_last : ℚ)
    if gradient then
      .ok (.parts [⟨toString (pyRound percentage),
        ["line_percent_gradient", "line_percent"], some percentage, none⟩])
    else .ok (.text (toString (pyRound percentage)))

/-! ## The file_name segment (lines 182-202) -/

/-- Python truthiness of the buffer name: None and the empty string are
falsy. -/
def nameFalsy : Option String → Bool
  | none => true
  | some s => s.isEmpty

/-- os.path.basename for the POSIX paths the host hands over: the part after
the last slash. -/
def posixBasename (s : String) : String :=
  (s.splitOn "/").getLastD ""

/-- The file_name segment (pure value): with a falsy buffer name return the
no-file fragment when display_no_file is set, else None; otherwise the base
name of the buffer name. -/
def file_name (si : SegmentInfo) (display_no_file : Bool)
    (no_file_text : String) : FragmentValue :=
  match nameFalsy si.buffer.name with
  | true =>
    if display_no_file then
      .parts [⟨no_file_text, ["file_name_no_file", "file_name"], none, none⟩]
    else .absent
  | false => .text (posixBasename (si.buffer.name.getD ""))

/-- The module-level mutable state: the window_cached dictionaries (one shown,
they are all independent) and the trailing-whitespace cache. -/
structure Caches where
  wc : WCache FragmentValue
  tw : TWCache

/-- file_name in state-passing form: its body reads and writes neither
module-level cache, so the state passes through unchanged. -/
def file_name_run (gs : Caches) (si : SegmentInfo) (display_no_file : Bool)
    (no_file_text : String) : FragmentValue × Caches :=
  (file_name si display_no_file no_file_text, gs)

/-! ## Context derivation and the listers (lines 507-597) -/

/-- int(window.vars.get('powerline_window_id', -1)). -/
def winPowerlineId (w : Window) : Int :=
  (List.lookup "powerline_window_id" w.vars).getD (-1)

/-- tabpage_updated_segment_info: copy the context and overwrite tabpage,
tabnr, window, winnr, window_id, buffer, bufnr with the tab-local values.
The functional record update is the embedding of dict.copy() followed by
dict.update(...): the base context is a distinct, unmodified value. -/
def tabpage_updated_segment_info (si : SegmentInfo) (tp : Tabpage) : SegmentInfo :=
  let window := tp.window
  let buffer := window.buffer
  { si with
    tabpage := some tp
    tabnr := some tp.number
    window := some window
    winnr := some window.number
    window_id := some (winPowerlineId window)
    buffer := buffer
    bufnr := buffer.number }

/-- buffer_updated_segment_info: copy the context, set buffer and bufnr to the
buffer-local values and unset window, winnr and window_id. -/
def buffer_updated_segment_info (si : SegmentInfo) (b : Buffer) : SegmentInfo :=
  { si with
    window := none
    winnr := none
    window_id := none
    buffer := b
    bufnr := b.number }

/-- tablister: one (derived context, override) pair per tab page, in the host
enumeration order; mode is tab for the current tab page and nc otherwise;
priority_multiplier is 1 + 0.001 * abs(tabpage.number - cur_tabnr). -/
def tablister (host : VimHost) (si : SegmentInfo) : List (SegmentInfo × Override) :=
  let cur_tabpage := host.curTab
  let cur_tabnr := cur_tabpage.number
  host.tabpages.map (fun tabpage =>
    (tabpage_updated_segment_info si tabpage,
     ⟨if tabpage = cur_tabpage then "tab" else "nc",
      1 + (1 / 1000 : ℚ) * ((tabpage.number - cur_tabnr).natAbs : ℚ)⟩))

/-- bufferlister: one (derived context, override) pair per buffer, in the host
enumeration order; the mode written for the current buffer is the string tab
(sic, lines 586), nc otherwise; priority_multiplier is
1 + 0.001 * abs(buffer.number - cur_bufnr). -/
def bufferlister (host : VimHost) (si : SegmentInfo) : List (SegmentInfo × Override) :=
  let cur_buffer := host.curBuf
  let cur_bufnr := cur_buffer.number
  host.buffers.map (fun buffer =>
    (buffer_updated_segment_info si buffer,
     ⟨if buffer = cur_buffer then "tab" else "nc",
      1 + (1 / 1000 : ℚ) * ((buffer.number - cur_bufnr).natAbs : ℚ)⟩))

/-- tabbuflister: delegate to bufferlister when exactly one tab page is open,
else to tablister. -/
def tabbuflister (host : VimHost) (si : SegmentInfo) : List (SegmentInfo × Override) :=
  if host.tabpages.length = 1 then bufferlister host si
  else tablister host si

/-! ## Concrete fixtures for evaluation -/

/-- A buffer numbered 1. -/
def buf1 : Buffer := ⟨1, none, [[]]⟩

/-- A buffer numbered 2. -/
def buf2 : Buffer := ⟨2, none, [[]]⟩

/-- A buffer numbered 3. -/
def buf3 : Buffer := ⟨3, none, [[]]⟩

/-- A window showing buf1. -/
def win1 : Window := ⟨1, buf1, (1, 0), [("powerline_window_id", 11)]⟩

/-- A window showing buf2. -/
def win2 : Window := ⟨2, buf2, (1, 0), [("powerline_window_id", 12)]⟩

/-- A window showing buf3. -/
def win3 : Window := ⟨3, buf3, (1, 0), [("powerline_window_id", 13)]⟩

/-- Tab page 1. -/
def tab1 : Tabpage := ⟨1, win1⟩

/-- Tab page 2. -/
def tab2 : Tabpage := ⟨2, win2⟩

/-- Tab page 3. -/
def tab3 : Tabpage := ⟨3, win3⟩

/-- A base context in normal mode on buf1 / win1. -/
def si0 : SegmentInfo :=
  ⟨"n", buf1, 1, some win1, some 1, some 11, some tab1, some 1, [("encoding", "utf-8")]⟩

/-- Host state: one tab page open, three buffers, current buffer 1. -/
def host1 : VimHost := ⟨[tab1], tab1, [buf1, buf2, buf3], buf1⟩

/-- Host state: two tab pages open, three buffers, current buffer 1. -/
def host2 : VimHost := ⟨[tab1, tab2], tab1, [buf1, buf2, buf3], buf1⟩

/-- Host state: three tab pages open, current tab 2. -/
def host3 : VimHost := ⟨[tab1, tab2, tab3], tab2, [buf1], buf1⟩

/-- A 100-line buffer. -/
def buf100 : Buffer := ⟨4, some "/tmp/a/f.txt", List.replicate 100 []⟩

/-- A window on buf100 with the cursor on line 50. -/
def win50 : Window := ⟨1, buf100, (50, 0), []⟩

/-- A context whose cursor is on line 50 of a 100-line buffer. -/
def si50 : SegmentInfo :=
  ⟨"n", buf100, 4, some win50, some 1, some 11, none, none, []⟩

/-- A context whose buffer has no file name. -/
def siNoName : SegmentInfo :=
  ⟨"n", buf1, 1, some win1, some 1, some 11, none, none, []⟩

/-- An empty module-level cache state. -/
def caches0 : Caches := ⟨fun _ => none, []⟩

/-- A focused (insert-mode) context with window_id 7. -/
def siFoc : SegmentInfo :=
  ⟨"i", buf1, 1, some win1, some 1, some 7, none, none, []⟩

/-- A not-current context with window_id 7. -/
def siNc : SegmentInfo :=
  ⟨"nc", buf1, 1, some win1, some 1, some 7, none, none, []⟩

/-- A not-current context with window_id 8. -/
def siNc8 : SegmentInfo :=
  ⟨"nc", buf1, 1, some win1, some 1, some 8, none, none, []⟩

/-! ## Helper lemmas -/

/-- The scan result is the least flagged line: it names a flagged line by its
1-based number and every earlier line is unflagged. -/
theorem tw_scan_first (ws : List Char) (buf : List (List Char)) :
    ∀ n : Nat, tw_scan ws buf = some n →
      ∃ i l, n = i + 1 ∧ buf[i]? = some l ∧ flaggedWith ws l = true
        ∧ ∀ j lj, j < i → buf[j]? = some lj → flaggedWith ws lj = false := by
  induction buf with
  | nil => intro n hn; simp [tw_scan] at hn
  | cons l ls ih =>
    intro n hn
    unfold tw_scan at hn
    cases hf : flaggedWith ws l with
    | true =>
      rw [hf] at hn
      simp at hn
      exact ⟨0, l, hn.symm, by simp, hf, fun j lj hj _ => absurd hj (Nat.not_lt_zero j)⟩
    | false =>
      rw [hf] at hn
      simp at hn
      obtain ⟨m, hm, hmn⟩ := hn
      obtain ⟨i, l2, hmi, hget, hfl, hprev⟩ := ih m hm
      refine ⟨i + 1, l2, by omega, by simpa using hget, hfl, ?_⟩
      intro j lj hj hjget
      cases j with
      | zero =>
        have hlj : l = lj := by simpa using hjget
        rw [← hlj]
        exact hf
      | succ j2 =>
        exact hprev j2 lj (Nat.lt_of_succ_lt_succ hj) (by simpa using hjget)

/-- The scan result is determined by the lines up to the first flagged one:
lines after it are never examined. -/
theorem tw_scan_append (ws : List Char) (pre : List (List Char)) :
    ∀ (post : List (List Char)) (n : Nat),
      tw_scan ws pre = some n → tw_scan ws (pre ++ post) = some n := by
  induction pre with
  | nil => intro post n hn; simp [tw_scan] at hn
  | cons l ls ih =>
    intro post n hn
    unfold tw_scan at hn ⊢
    cases hf : flaggedWith ws l with
    | true =>
      rw [hf] at hn
      simp at hn
      simp [hf, hn]
    | false =>
      rw [hf] at hn
      simp at hn
      obtain ⟨m, hm, hmn⟩ := hn
      simp [hf]
      rw [ih post m hm]
      simpa using hmn

/-- A window_cached call in a not-current context is a pure cache lookup. -/
theorem window_cached_step_nc {α : Type} (c : WCache α) (si : SegmentInfo)
    (f : Unit → α) (h : si.mode = "nc") :
    window_cached_step c si f = (c si.window_id, c, false) := by
  simp [window_cached_step, h]

/-- A window_cached call in a focused context runs the wrapped function and
stores its result. -/
theorem window_cached_step_foc {α : Type} (c : WCache α) (si : SegmentInfo)
    (f : Unit → α) (h : si.mode ≠ "nc") :
    window_cached_step c si f = (some (f ()), wcSet c si.window_id (f ()), true) := by
  simp [window_cached_step, h]

/-- A sequence of window_cached calls that never runs focused with the
window identity w leaves the cache entry of w unchanged. -/
theorem wcRun_preserve {α : Type} (w : Option Int)
    (calls : List (SegmentInfo × (Unit → α))) :
    ∀ c : WCache α,
      (∀ p ∈ calls, p.1.mode = "nc" ∨ p.1.window_id ≠ w) →
      wcRun c calls w = c w := by
  induction calls with
  | nil => intro c _; rfl
  | cons p rest ih =>
    intro c h
    have hp := h p (List.mem_cons_self p rest)
    have hrest : ∀ q ∈ rest, q.1.mode = "nc" ∨ q.1.window_id ≠ w :=
      fun q hq => h q (List.mem_cons_of_mem p hq)
    unfold wcRun
    by_cases hm : p.1.mode = "nc"
    · rw [show (window_cached_step c p.1 p.2).2.1 = c from by
        simp [window_cached_step, hm]]
      exact ih c hrest
    · have hw : p.1.window_id ≠ w := by
        rcases hp with hp | hp
        · exact absurd hp hm
        · exact hp
      rw [show (window_cached_step c p.1 p.2).2.1 = wcSet c p.1.window_id (p.2 ()) from by
        simp [window_cached_step, hm]]
      rw [ih _ hrest]
      simp [wcSet, Ne.symm hw]

/-! ## Claim theorems -/

/-- C1 counterexample: the cache is a defaultdict whose default entry is
(0, None), so on a buffer with no cache entry and current mutation counter 0
the stored default counter equals the current counter and the hit branch is
taken: the buffer (here a single line ending in a space) is not scanned,
nothing is stored, and None is returned instead of the scan result — refuting
the claim that with no entry present the scan always runs and its result is
stored and returned. -/
theorem c1_mutation_cache_counterexample :
    trailing_whitespace_step [] 1 0 [[' ']] = .ok (.absent, [], false)
    ∧ trailing_whitespace_compute sws [[' ']] =
        .ok (.parts [⟨"1", ["trailing_whitespace", "warning"], none, none⟩])
    ∧ FragmentValue.absent ≠
        .parts [⟨"1", ["trailing_whitespace", "warning"], none, none⟩] :=
  ⟨rfl, rfl, by decide⟩

/-- C1 (amended): a missing cache entry behaves as a stored entry
(0, None).  If the stored counter — 0 when no entry exists — equals the
current counter, the stored value (None when no entry) is returned without
rescanning and the cache is unchanged; otherwise the scan runs,
(current_counter, result) is stored and the result is returned, so any
further call with the same counter hits the stored entry and never
rescans. -/
theorem c1_mutation_cache_amended (c : TWCache) (bufnr tick : Int)
    (buf : List (List Char)) (hbuf : buf ≠ []) :
    ((twLookup c bufnr).1 = tick →
      trailing_whitespace_step c bufnr tick buf =
        .ok ((twLookup c bufnr).2, c, false))
    ∧ ((twLookup c bufnr).1 ≠ tick →
      ∃ r, trailing_whitespace_compute sws buf = .ok r
        ∧ trailing_whitespace_step c bufnr tick buf =
            .ok (r, twStore c bufnr tick r, true)
        ∧ twLookup (twStore c bufnr tick r) bufnr = (tick, r)) := by
  constructor
  · intro h
    simp [trailing_whitespace_step, h]
  · intro h
    have hcomp : ∃ r, trailing_whitespace_compute sws buf = .ok r := by
      unfold trailing_whitespace_compute
      rw [if_neg hbuf]
      cases tw_scan sws buf <;> exact ⟨_, rfl⟩
    obtain ⟨r, hr⟩ := hcomp
    refine ⟨r, hr, ?_, ?_⟩
    · simp [trailing_whitespace_step, h, hr]
    · simp [twLookup, twStore, List.find?]

/-- C1 witness: both branches of the amended theorem at concrete inputs — a
hit on a stored entry (1, 5, None) with counter 5, and a scanning call on an
empty cache with counter 5 on a buffer whose single line ends in a space. -/
theorem c1_mutation_cache_amended_witness :
    trailing_whitespace_step [(1, 5, FragmentValue.absent)] 1 5 [['x']] =
      .ok (.absent, [(1, 5, FragmentValue.absent)], false)
    ∧ ∃ r, trailing_whitespace_compute sws [['x', ' ']] = .ok r
        ∧ trailing_whitespace_step [] 1 5 [['x', ' ']] =
            .ok (r, twStore [] 1 5 r, true)
        ∧ twLookup (twStore [] 1 5 r) 1 = (5, r) :=
  ⟨(c1_mutation_cache_amended [(1, 5, .absent)] 1 5 [['x']] (by decide)).1 (by decide),
   (c1_mutation_cache_amended [] 1 5 [['x', ' ']] (by decide)).2 (by decide)⟩

/-- C2: with one open tab and buffers [1,2,3], current buffer 1, the auto
fan-out equals the buffer-based one, in host order — but the mode written for
the current buffer is the string tab, not buf as both the claim and the
function docstring (lines 573-574) state; with two open tabs it delegates to
the tab-based lister regardless of buffer count. -/
theorem c2_tabbuflister_mode_bug :
    tabbuflister host1 si0 = bufferlister host1 si0
    ∧ (tabbuflister host1 si0).map (fun p => p.2.mode) = ["tab", "nc", "nc"]
    ∧ (tabbuflister host1 si0).map (fun p => p.2.mode) ≠ ["buf", "nc", "nc"]
    ∧ (tabbuflister host1 si0).map (fun p => p.1.bufnr) = [1, 2, 3]
    ∧ tabbuflister host2 si0 = tablister host2 si0 := by
  refine ⟨rfl, by decide, by decide, by decide, ?_⟩
  have h2 : host2.tabpages.length = 2 := rfl
  unfold tabbuflister
  rw [h2]
  simp

/-- C3: under Python 3, sws = str(bws) is the repr of the bytes literal — the
six characters b, quote, space, backslash, t, quote — not the two characters
space and tab.  A line ending in a real tab is therefore not flagged, while a
line ending in the letter t is; the intended predicate (bws, the Python 2
reading) flags the tab.  A line ending in a space is still flagged under
both. -/
theorem c3_trailing_ws_flag_bug :
    flaggedWith bws ['x', '\t'] = true
    ∧ flaggedWith sws ['x', '\t'] = false
    ∧ flaggedWith sws ['x', 't'] = true
    ∧ flaggedWith sws ['x', ' '] = true
    ∧ trailing_whitespace_compute sws [['x', '\t']] = .ok .absent
    ∧ trailing_whitespace_compute sws [['x', 't']] =
        .ok (.parts [⟨"1", ["trailing_whitespace", "warning"], none, none⟩]) :=
  ⟨by decide, by decide, by decide, by decide, rfl, rfl⟩

/-- C4: each output entry of tablister sits at the position of its tab page
in the host enumeration (order preserved, never re-sorted), its context is
the tab-derived one, its mode is tab exactly for the current tab page and nc
otherwise, and its priority_multiplier is
1 + 0.001 * abs(tab_number - current_tab_number); for tabs [1,2,3] with
current tab 2 the multipliers are 1.001, 1.000, 1.001 with modes nc, tab,
nc in enumeration order. -/
theorem c4_tablister_fanout (host : VimHost) (si : SegmentInfo) (k : Nat)
    (tp : Tabpage) (h : host.tabpages[k]? = some tp) :
    (tablister host si)[k]? = some (tabpage_updated_segment_info si tp,
      ⟨if tp = host.curTab then "tab" else "nc",
       1 + (1 / 1000 : ℚ) * ((tp.number - host.curTab.number).natAbs : ℚ)⟩)
    ∧ (tablister host3 si0).map (fun p => p.2.mode) = ["nc", "tab", "nc"]
    ∧ (tablister host3 si0).map (fun p => p.2.priority_multiplier) =
        [1.001, 1, 1.001]
    ∧ (tablister host3 si0).map (fun p => p.1.tabnr) = [some 1, some 2, some 3] := by
  refine ⟨?_, by decide, ?_, by decide⟩
  · simp [tablister, List.getElem?_map, h]
  · norm_num [tablister, host3, tab1, tab2, tab3, win1, win2, win3]

/-- C4 witness: the general clause of the fan-out theorem instantiated at the
first tab of the three-tab host. -/
theorem c4_tablister_fanout_witness :
    (tablister host3 si0)[0]? = some (tabpage_updated_segment_info si0 tab1,
      ⟨if tab1 = host3.curTab then "tab" else "nc",
       1 + (1 / 1000 : ℚ) * ((tab1.number - host3.curTab.number).natAbs : ℚ)⟩) :=
  (c4_tablister_fanout host3 si0 0 tab1 (by decide)).1

/-- C5: after a focused call (mode is not nc) for window identity w returns
the computed value, any later not-focused call for w — with arbitrary
intervening calls none of which is a focused call for w — returns that same
value without running its wrapped computation, whatever that computation
would return; and a not-focused call for a window with no stored value
returns none (no value yet) without running the computation and without
changing the cache. -/
theorem c5_window_cached_staleness {α : Type} (c : WCache α)
    (si1 si2 : SegmentInfo) (f1 : Unit → α)
    (calls : List (SegmentInfo × (Unit → α)))
    (h1 : si1.mode ≠ "nc") (h2 : si2.mode = "nc")
    (hw : si2.window_id = si1.window_id)
    (hcalls : ∀ p ∈ calls, p.1.mode = "nc" ∨ p.1.window_id ≠ si1.window_id) :
    (∀ f2 : Unit → α,
      window_cached_step (wcRun (window_cached_step c si1 f1).2.1 calls) si2 f2 =
        (some (f1 ()), wcRun (window_cached_step c si1 f1).2.1 calls, false))
    ∧ (∀ (c0 : WCache α) (si3 : SegmentInfo) (f3 : Unit → α),
        si3.mode = "nc" → c0 si3.window_id = none →
        window_cached_step c0 si3 f3 = (none, c0, false)) := by
  constructor
  · intro f2
    have hstep : (window_cached_step c si1 f1).2.1 = wcSet c si1.window_id (f1 ()) := by
      rw [window_cached_step_foc c si1 f1 h1]
    have hrun : wcRun (window_cached_step c si1 f1).2.1 calls si2.window_id =
        (window_cached_step c si1 f1).2.1 si2.window_id := by
      rw [hw]
      exact wcRun_preserve si1.window_id calls _ hcalls
    have hval : (window_cached_step c si1 f1).2.1 si2.window_id = some (f1 ()) := by
      rw [hstep, hw]
      simp [wcSet]
    rw [window_cached_step_nc _ si2 f2 h2, hrun, hval]
  · intro c0 si3 f3 h3 hn
    rw [window_cached_step_nc c0 si3 f3 h3, hn]

/-- C5 witness: a focused call with window identity 7 returning 42, one
intervening not-focused call for identity 8, then a not-focused call for 7
returning the stored 42 without running its computation; and a not-focused
call on the empty cache returning none. -/
theorem c5_window_cached_staleness_witness :
    window_cached_step
        (wcRun (window_cached_step (fun _ => (none : Option Nat)) siFoc
          (fun _ => 42)).2.1 [(siNc8, fun _ => 0)]) siNc (fun _ => 0) =
      (some 42,
       wcRun (window_cached_step (fun _ => (none : Option Nat)) siFoc
         (fun _ => 42)).2.1 [(siNc8, fun _ => 0)], false)
    ∧ window_cached_step (fun _ => (none : Option Nat)) siNc (fun _ => 0) =
        (none, fun _ => none, false) := by
  have h := c5_window_cached_staleness (fun _ => (none : Option Nat)) siFoc siNc
    (fun _ => 42) [(siNc8, fun _ => 0)] (by decide) rfl rfl
    (by
      intro p hp
      rw [List.mem_singleton] at hp
      subst hp
      exact Or.inl rfl)
  exact ⟨h.1 (fun _ => 0), h.2 (fun _ => none) siNc (fun _ => 0) rfl rfl⟩

/-- C6: deriving a context for a tab page overwrites exactly tabpage, tabnr,
window, winnr, window_id, buffer and bufnr with the tab-local values and
keeps every other entry of the base context (its mode and all extra entries);
the derivation is a copy, built by a functional record update, so the base
context value itself is untouched. -/
theorem c6_tabpage_context_update (si : SegmentInfo) (tp : Tabpage) :
    (tabpage_updated_segment_info si tp).tabpage = some tp
    ∧ (tabpage_updated_segment_info si tp).tabnr = some tp.number
    ∧ (tabpage_updated_segment_info si tp).window = some tp.window
    ∧ (tabpage_updated_segment_info si tp).winnr = some tp.window.number
    ∧ (tabpage_updated_segment_info si tp).window_id =
        some (winPowerlineId tp.window)
    ∧ (tabpage_updated_segment_info si tp).buffer = tp.window.buffer
    ∧ (tabpage_updated_segment_info si tp).bufnr = tp.window.buffer.number
    ∧ (tabpage_updated_segment_info si tp).mode = si.mode
    ∧ (tabpage_updated_segment_info si tp).extra = si.extra :=
  ⟨rfl, rfl, rfl, rfl, rfl, rfl, rfl, rfl, rfl⟩

/-- C7: for a mode present in the static table, the mode segment returns the
default string when the override is unset, the override string when the
override has an entry for the mode, and falls back to the default string when
the override (empty or not) lacks the mode — never an error and never None
for a known mode. -/
theorem c7_mode_override_fallback (si : SegmentInfo) (d : String)
    (hd : List.lookup si.mode vim_modes = some d) :
    mode_segment si none = .ok (some d)
    ∧ (∀ (l : List (String × String)) (v : String),
        List.lookup si.mode l = some v → mode_segment si (some l) = .ok (some v))
    ∧ (∀ l : List (String × String),
        List.lookup si.mode l = none → mode_segment si (some l) = .ok (some d)) := by
  have hm : ¬ si.mode = "nc" := by
    intro h
    rw [h, show List.lookup "nc" vim_modes = none from by decide] at hd
    cases hd
  refine ⟨?_, ?_, ?_⟩
  · simp [mode_segment, hm, dictItem, hd]
  · intro l v hv
    cases l with
    | nil => simp [List.lookup] at hv
    | cons a as => simp [mode_segment, hm, hv]
  · intro l hnone
    cases l with
    | nil => simp [mode_segment, hm, dictItem, hd]
    | cons a as => simp [mode_segment, hm, hnone, dictItem, hd]

/-- C7 witness: in normal mode, no override gives NORMAL, an override with an
entry for n gives that entry, and an override lacking n falls back to
NORMAL. -/
theorem c7_mode_override_fallback_witness :
    mode_segment si0 none = .ok (some "NORMAL")
    ∧ mode_segment si0 (some [("n", "NORM")]) = .ok (some "NORM")
    ∧ mode_segment si0 (some [("v", "VIS")]) = .ok (some "NORMAL") := by
  have h := c7_mode_override_fallback si0 "NORMAL" (by decide)
  exact ⟨h.1, h.2.1 [("n", "NORM")] "NORM" (by decide),
    h.2.2 [("v", "VIS")] (by decide)⟩

/-- C8: on line 50 of a 100-line buffer, the line_percent segment with
gradient requested returns a single segment part with contents 50 and
gradient_level 50, and without gradient the plain string 50. -/
theorem c8_line_percent_gradient :
    line_percent si50 true = .ok (.parts [⟨"50",
      ["line_percent_gradient", "line_percent"], some 50, none⟩])
    ∧ line_percent si50 false = .ok (.text "50") := by
  have hperc : ((50 : Int) : ℚ) * 100 / (((List.replicate 100 ([] : List Char)).length : Int) : ℚ) = 50 := by
    norm_num
  have hround : pyRound 50 = 50 := by
    unfold pyRound
    norm_num
  have hs : toString (50 : ℤ) = "50" := rfl
  constructor
  · simp [line_percent, si50, win50, buf100, hperc, hround, hs]
  · simp [line_percent, si50, win50, buf100, hperc, hround, hs]

/-- C9: with a buffer carrying no file name and display_no_file unset, the
file_name segment returns None (absent) rather than an empty string, on a
first and on an immediately repeated invocation, and the module-level cache
state is unchanged by both. -/
theorem c9_file_name_absent (gs : Caches) (si : SegmentInfo) (t : String)
    (h : nameFalsy si.buffer.name = true) :
    file_name_run gs si false t = (.absent, gs)
    ∧ file_name_run (file_name_run gs si false t).2 si false t = (.absent, gs) := by
  have h1 : file_name si false t = .absent := by
    unfold file_name
    rw [h]
    simp
  exact ⟨by simp [file_name_run, h1], by simp [file_name_run, h1]⟩

/-- C9 witness: the double invocation on a concrete nameless-buffer context
and empty cache state. -/
theorem c9_file_name_absent_witness :
    file_name_run caches0 siNoName false "[No file]" = (.absent, caches0)
    ∧ file_name_run (file_name_run caches0 siNoName false "[No file]").2
        siNoName false "[No file]" = (.absent, caches0) :=
  c9_file_name_absent caches0 siNoName "[No file]" (by decide)

/-- C10: for any whitespace set and any nonempty buffer the scan terminates
with a result (no error): an empty line is never flagged (the truthiness
guard), a returned number n is the 1-based index of the first flagged line —
the line it names is flagged and every earlier line is not — and the
fragment carries n as its contents; and the scan result is already
determined by the lines up to the first flagged one, so no later line is
examined. -/
theorem c10_trailing_ws_scan_safety (ws : List Char) (buf : List (List Char))
    (hbuf : buf ≠ []) :
    flaggedWith ws [] = false
    ∧ (∃ v, trailing_whitespace_compute ws buf = .ok v)
    ∧ (∀ n, tw_scan ws buf = some n →
        (∃ i l, n = i + 1 ∧ buf[i]? = some l ∧ flaggedWith ws l = true
          ∧ ∀ j lj, j < i → buf[j]? = some lj → flaggedWith ws lj = false)
        ∧ trailing_whitespace_compute ws buf =
            .ok (.parts [⟨toString n, ["trailing_whitespace", "warning"], none, none⟩]))
    ∧ (∀ (pre post : List (List Char)) (n : Nat),
        tw_scan ws pre = some n → tw_scan ws (pre ++ post) = some n) := by
  refine ⟨rfl, ?_, ?_, fun pre post n hn => tw_scan_append ws pre post n hn⟩
  · unfold trailing_whitespace_compute
    rw [if_neg hbuf]
    cases tw_scan ws buf <;> exact ⟨_, rfl⟩
  · intro n hn
    refine ⟨tw_scan_first ws buf n hn, ?_⟩
    unfold trailing_whitespace_compute
    rw [if_neg hbuf, hn]

/-- C10 witness: on the three-line buffer a, b-space, c with the intended
whitespace set, the scan succeeds, the empty line is unflagged, and the
result 2 names the first flagged line with the fragment contents 2. -/
theorem c10_trailing_ws_scan_safety_witness :
    flaggedWith bws [] = false
    ∧ (∃ v, trailing_whitespace_compute bws [['a'], ['b', ' '], ['c']] = .ok v)
    ∧ ((∃ i l, 2 = i + 1 ∧ [['a'], ['b', ' '], ['c']][i]? = some l
          ∧ flaggedWith bws l = true
          ∧ ∀ j lj, j < i → [['a'], ['b', ' '], ['c']][j]? = some lj →
              flaggedWith bws lj = false)
        ∧ trailing_whitespace_compute bws [['a'], ['b', ' '], ['c']] =
            .ok (.parts [⟨toString 2, ["trailing_whitespace", "warning"], none, none⟩])) := by
  have h := c10_trailing_ws_scan_safety bws [['a'], ['b', ' '], ['c']] (by decide)
  exact ⟨h.1, h.2.1, h.2.2.1 2 (by decide)⟩

end Powerline
